import Mathlib

/-!
# Verification of the confluence-downloader core

A shallow embedding, in Lean 4, of the core of the `confluence-downloader`
repository: the ADF-to-Markdown conversion engine
(`src/adf-markdown-converter.ts`, second `ADFMarkdownConverter` class) and the
content retrieval stream (`content-downloader.ts`: `ContentStream`).

Conventions of the embedding:
* TypeScript optional values (`undefined`/`null`) become `Option`.
* JavaScript truthiness tests on strings (`s || d`, `if (!s)`) are modelled by
  explicit emptiness tests (`jsOrStr`), and on numbers by zero tests.
* Exceptions thrown inside the converter are modelled with `Except String`,
  the carried `String` standing for the runtime error message.
* `Array.prototype.sort` (required stable by the ECMAScript spec) is modelled
  by a stable insertion sort; stable sorts with the same comparator agree on
  every input, so this is semantics-preserving.
* Single-character global regex replaces (`.replace(/x/g, r)`) are modelled by
  a character-list traversal `replaceAllChar`.
-/

namespace ConfluenceDownloader

/-- JS `opt || dflt` on an optional string: `undefined` and `""` are falsy. -/
def jsOrStr : Option String → String → String
  | some s, d => if s = "" then d else s
  | none, d => d

/-- JS `opt || dflt` on an optional integer: `undefined` and `0` are falsy. -/
def jsOrInt : Option Int → Int → Int
  | some n, d => if n = 0 then d else n
  | none, d => d

/-- `str.repeat(n)`: `n` concatenated copies of `s`. -/
def strRepeat (s : String) : Nat → String
  | 0 => ""
  | n + 1 => s ++ strRepeat s n

/-- `Array.prototype.join(sep)` on a list of strings. -/
def joinSep (sep : String) : List String → String
  | [] => ""
  | x :: xs => xs.foldl (fun acc y => acc ++ sep ++ y) x

/-! ## Marks (`registerMarkHandlers`, `getMarkPriority`, `applyMarks`) -/

/-- The mark attributes accessed by the registered mark handlers
(`attrs.href`, `attrs.title`, `attrs.type`, `attrs.color`, `attrs.align`,
`attrs.level`); every field is optional, as in the ADF payload. -/
structure MarkAttrs where
  href : Option String := none
  title : Option String := none
  subType : Option String := none
  color : Option String := none
  align : Option String := none
  level : Option Int := none
deriving DecidableEq, Repr

/-- An ADF mark: `{ type: string, attrs?: object }`. -/
structure ADFMark where
  type : String
  attrs : Option MarkAttrs := none
deriving DecidableEq, Repr

/-- The `link` mark handler. -/
def markLink (text : String) (mark : ADFMark) : String :=
  let href := jsOrStr (mark.attrs.bind MarkAttrs.href) ""
  let title := jsOrStr (mark.attrs.bind MarkAttrs.title) ""
  if title = "" then "[" ++ text ++ "](" ++ href ++ ")"
  else "[" ++ text ++ "](" ++ href ++ " \"" ++ title ++ "\")"

/-- The `strong` mark handler. -/
def markStrong (text : String) (_ : ADFMark) : String := "**" ++ text ++ "**"

/-- The `em` mark handler. -/
def markEm (text : String) (_ : ADFMark) : String := "*" ++ text ++ "*"

/-- The `strike` mark handler. -/
def markStrike (text : String) (_ : ADFMark) : String := "~~" ++ text ++ "~~"

/-- The `code` mark handler. -/
def markCode (text : String) (_ : ADFMark) : String := "`" ++ text ++ "`"

/-- The `underline` mark handler. -/
def markUnderline (text : String) (_ : ADFMark) : String := "<u>" ++ text ++ "</u>"

/-- The `subsup` mark handler. -/
def markSubsup (text : String) (mark : ADFMark) : String :=
  let ty := jsOrStr (mark.attrs.bind MarkAttrs.subType) "sub"
  if ty = "sub" then "<sub>" ++ text ++ "</sub>"
  else if ty = "sup" then "<sup>" ++ text ++ "</sup>"
  else text

/-- The `textColor` mark handler. -/
def markTextColor (text : String) (mark : ADFMark) : String :=
  let color := jsOrStr (mark.attrs.bind MarkAttrs.color) ""
  if color = "" then text
  else "<span style=\"color: " ++ color ++ "\">" ++ text ++ "</span>"

/-- The `backgroundColor` mark handler. -/
def markBackgroundColor (text : String) (mark : ADFMark) : String :=
  let color := jsOrStr (mark.attrs.bind MarkAttrs.color) ""
  if color = "" then text
  else "<span style=\"background-color: " ++ color ++ "\">" ++ text ++ "</span>"

/-- The `alignment` mark handler. -/
def markAlignment (text : String) (mark : ADFMark) : String :=
  let align := jsOrStr (mark.attrs.bind MarkAttrs.align) "left"
  if align = "left" then text
  else "<div style=\"text-align: " ++ align ++ "\">" ++ text ++ "</div>"

/-- The `indentation` mark handler. -/
def markIndentation (text : String) (mark : ADFMark) : String :=
  let level := jsOrInt (mark.attrs.bind MarkAttrs.level) 0
  if level ≤ 0 then text
  else strRepeat "&nbsp;" (level.toNat * 2) ++ text

/-- The `markHandlers` map: mark-type string to handler. -/
def markHandlerLookup (t : String) : Option (String → ADFMark → String) :=
  if t = "link" then some markLink
  else if t = "strong" then some markStrong
  else if t = "em" then some markEm
  else if t = "strike" then some markStrike
  else if t = "code" then some markCode
  else if t = "underline" then some markUnderline
  else if t = "subsup" then some markSubsup
  else if t = "textColor" then some markTextColor
  else if t = "backgroundColor" then some markBackgroundColor
  else if t = "alignment" then some markAlignment
  else if t = "indentation" then some markIndentation
  else none

/-- `getMarkPriority`: the fixed priority table; a type missing from the table
gets `100` (`priorities[markType] || 100`). -/
def getMarkPriority (t : String) : Nat :=
  if t = "code" then 1
  else if t = "link" then 2
  else if t = "em" then 3
  else if t = "strong" then 4
  else if t = "strike" then 5
  else if t = "underline" then 6
  else if t = "textColor" then 7
  else if t = "subsup" then 8
  else 100

/-- Stable insertion of a mark into a priority-sorted list: an incoming mark
stops in front of the first mark of greater-or-equal priority, so marks of
equal priority keep their original relative order. -/
def insertMark (m : ADFMark) : List ADFMark → List ADFMark
  | [] => [m]
  | x :: xs =>
    if getMarkPriority m.type ≤ getMarkPriority x.type then m :: x :: xs
    else x :: insertMark m xs

/-- Stable sort of `marks` by `getMarkPriority`, modelling the (stable)
`[...marks].sort((a, b) => priority a - priority b)` of `applyMarks`. -/
def sortMarks : List ADFMark → List ADFMark
  | [] => []
  | x :: xs => insertMark x (sortMarks xs)

/-- One step of the `reduce` inside `applyMarks`: apply the handler for the
mark to the accumulated text, or keep the text when no handler is registered
(the source only logs a warning in that case). -/
def applyOneMark (result : String) (mark : ADFMark) : String :=
  match markHandlerLookup mark.type with
  | some h => h result mark
  | none => result

/-- `applyMarks`: empty text or an empty mark list short-circuits
(`if (!text || !marks || marks.length === 0) return text`); otherwise the
marks are sorted by priority and reduced left-to-right over the text. -/
def applyMarks (text : String) (marks : List ADFMark) : String :=
  if text = "" ∨ marks = [] then text
  else (sortMarks marks).foldl applyOneMark text

/-! ## `sanitizeText` -/

/-- A single-character global replace: `s.replace(/c/g, repl)` where the
pattern is one literal character. -/
def replaceAllChar (c : Char) (repl : List Char) : List Char → List Char
  | [] => []
  | x :: xs => (if x = c then repl else [x]) ++ replaceAllChar c repl xs

/-- The thirteen chained replaces of `sanitizeText`, innermost first:
backslash, `*`, `_`, backtick, `[`, `]`, `(`, `)`, `#`, `+`, `-`, `.`, `!`,
each replaced by a backslash followed by the character itself. -/
def sanitizeChars (s : List Char) : List Char :=
  replaceAllChar '!' ['\\', '!'] <|
  replaceAllChar '.' ['\\', '.'] <|
  replaceAllChar '-' ['\\', '-'] <|
  replaceAllChar '+' ['\\', '+'] <|
  replaceAllChar '#' ['\\', '#'] <|
  replaceAllChar ')' ['\\', ')'] <|
  replaceAllChar '(' ['\\', '('] <|
  replaceAllChar ']' ['\\', ']'] <|
  replaceAllChar '[' ['\\', '['] <|
  replaceAllChar (Char.ofNat 96) ['\\', Char.ofNat 96] <|
  replaceAllChar '_' ['\\', '_'] <|
  replaceAllChar '*' ['\\', '*'] <|
  replaceAllChar '\\' ['\\', '\\'] s

/-- `sanitizeText`: escape every Markdown-significant character. -/
def sanitizeText (s : String) : String := String.mk (sanitizeChars s.data)

/-- The thirteen Markdown-significant characters escaped by `sanitizeText`. -/
def isSpecialChar (c : Char) : Bool :=
  c = '\\' || c = '*' || c = '_' || c = Char.ofNat 96 || c = '[' || c = ']' ||
  c = '(' || c = ')' || c = '#' || c = '+' || c = '-' || c = '.' || c = '!'

/-- Per-character effect of the full replace chain. -/
def escapeChar (c : Char) : List Char :=
  if isSpecialChar c then ['\\', c] else [c]

/-- Number of Markdown-significant characters in a character list. -/
def countSpecial (l : List Char) : Nat := l.countP (fun c => isSpecialChar c)

/-! ### Lemmas about `sanitizeText` -/

theorem replaceAllChar_append (c : Char) (repl l1 l2 : List Char) :
    replaceAllChar c repl (l1 ++ l2) =
      replaceAllChar c repl l1 ++ replaceAllChar c repl l2 := by
  induction l1 with
  | nil => simp [replaceAllChar]
  | cons x xs ih => simp [replaceAllChar, ih]

theorem sanitizeChars_append (l1 l2 : List Char) :
    sanitizeChars (l1 ++ l2) = sanitizeChars l1 ++ sanitizeChars l2 := by
  simp only [sanitizeChars, replaceAllChar_append]

theorem sanitizeChars_singleton (c : Char) :
    sanitizeChars [c] = escapeChar c := by
  by_cases h1 : c = '\\'
  · subst h1; decide
  by_cases h2 : c = '*'
  · subst h2; decide
  by_cases h3 : c = '_'
  · subst h3; decide
  by_cases h4 : c = Char.ofNat 96
  · subst h4; decide
  by_cases h5 : c = '['
  · subst h5; decide
  by_cases h6 : c = ']'
  · subst h6; decide
  by_cases h7 : c = '('
  · subst h7; decide
  by_cases h8 : c = ')'
  · subst h8; decide
  by_cases h9 : c = '#'
  · subst h9; decide
  by_cases h10 : c = '+'
  · subst h10; decide
  by_cases h11 : c = '-'
  · subst h11; decide
  by_cases h12 : c = '.'
  · subst h12; decide
  by_cases h13 : c = '!'
  · subst h13; decide
  simp [sanitizeChars, replaceAllChar, escapeChar, isSpecialChar,
    h1, h2, h3, h4, h5, h6, h7, h8, h9, h10, h11, h12, h13]

theorem sanitizeChars_cons (c : Char) (l : List Char) :
    sanitizeChars (c :: l) = escapeChar c ++ sanitizeChars l := by
  have h : c :: l = [c] ++ l := rfl
  rw [h, sanitizeChars_append, sanitizeChars_singleton]

theorem sanitizeChars_nil : sanitizeChars [] = [] := by decide

theorem length_escapeChar (c : Char) :
    (escapeChar c).length = if isSpecialChar c then 2 else 1 := by
  simp only [escapeChar]
  split <;> rfl

theorem length_sanitizeChars (l : List Char) :
    (sanitizeChars l).length = l.length + countSpecial l := by
  induction l with
  | nil => simp [sanitizeChars_nil, countSpecial]
  | cons c xs ih =>
    rw [sanitizeChars_cons]
    simp only [List.length_append, length_escapeChar, ih,
      countSpecial, List.countP_cons, List.length_cons]
    split <;> omega

theorem countSpecial_escapeChar (c : Char) :
    (if isSpecialChar c then 1 else 0) ≤ countSpecial (escapeChar c) := by
  by_cases h : isSpecialChar c
  · simp [escapeChar, countSpecial, List.countP_cons, h]
  · simp [escapeChar, countSpecial, h]

theorem countSpecial_append (l1 l2 : List Char) :
    countSpecial (l1 ++ l2) = countSpecial l1 + countSpecial l2 := by
  simp [countSpecial, List.countP_append]

theorem countSpecial_le_sanitizeChars (l : List Char) :
    countSpecial l ≤ countSpecial (sanitizeChars l) := by
  induction l with
  | nil => simp [sanitizeChars_nil]
  | cons c xs ih =>
    rw [sanitizeChars_cons, countSpecial_append]
    have h1 := countSpecial_escapeChar c
    simp only [countSpecial, List.countP_cons] at *
    split <;> [skip; skip] <;> split at h1 <;> omega

/-- C7: `sanitizeText` is not idempotent: one application strictly grows any
string containing a Markdown-significant character, and the grown string again
contains significant characters, so a second application grows it further. -/
theorem sanitizeText_not_idempotent (s : String)
    (h : ∃ c ∈ s.data, isSpecialChar c) :
    sanitizeText (sanitizeText s) ≠ sanitizeText s := by
  intro heq
  have hdata : sanitizeChars (sanitizeChars s.data) = sanitizeChars s.data := by
    have := congrArg String.data heq
    simpa [sanitizeText] using this
  have hlen := congrArg List.length hdata
  rw [length_sanitizeChars] at hlen
  have hpos : 0 < countSpecial s.data := by
    obtain ⟨c, hc, hspec⟩ := h
    have : countSpecial s.data = s.data.countP (fun c => isSpecialChar c) := rfl
    rw [this, List.countP_pos_iff]
    exact ⟨c, hc, hspec⟩
  have hmono := countSpecial_le_sanitizeChars s.data
  omega

/-- Witness for C7 at the spec's example input `"*x*"`. -/
theorem sanitizeText_not_idempotent_witness :
    (∃ c ∈ "*x*".data, isSpecialChar c) ∧
      sanitizeText (sanitizeText "*x*") ≠ sanitizeText "*x*" :=
  ⟨by decide, sanitizeText_not_idempotent "*x*" (by decide)⟩

/-! ### Lemmas about `applyMarks` ordering -/

theorem applyMarks_pair_le (x : String) (hx : x ≠ "") (a b : ADFMark)
    (hab : getMarkPriority a.type ≤ getMarkPriority b.type) :
    applyMarks x [a, b] = applyOneMark (applyOneMark x a) b := by
  simp [applyMarks, hx, sortMarks, insertMark, hab]

theorem applyMarks_pair_swap (x : String) (hx : x ≠ "") (a b : ADFMark)
    (hlt : getMarkPriority a.type < getMarkPriority b.type) :
    applyMarks x [b, a] = applyOneMark (applyOneMark x a) b := by
  simp [applyMarks, hx, sortMarks, insertMark, not_le.mpr hlt]

/-- C1 counterexample: on text `"x"` the marks `{em, strong}` render as
`***x***` (the `em` handler emits asterisks, not underscores), which differs
from the `**_x_**` the claim promises. -/
theorem applyMarks_em_strong_counterexample :
    applyMarks "x" [ADFMark.mk "em" none, ADFMark.mk "strong" none] = "***x***" ∧
      applyMarks "x" [ADFMark.mk "em" none, ADFMark.mk "strong" none] ≠ "**_x_**" := by
  constructor
  · decide
  · decide

/-- C1 (amended): on any nonempty text `x`, the marks `{em, strong}` — in
either input order and with any attrs — render as `strong` wrapping `em`,
i.e. `**` ++ (`*` ++ x ++ `*`) ++ `**` (= `***x***`); the input order of the
two marks never changes the output. -/
theorem applyMarks_em_strong (x : String) (hx : x ≠ "")
    (a1 a2 : Option MarkAttrs) :
    applyMarks x [ADFMark.mk "em" a1, ADFMark.mk "strong" a2] =
        "**" ++ ("*" ++ x ++ "*") ++ "**" ∧
      applyMarks x [ADFMark.mk "strong" a2, ADFMark.mk "em" a1] =
        "**" ++ ("*" ++ x ++ "*") ++ "**" := by
  constructor
  · rw [applyMarks_pair_le x hx (ADFMark.mk "em" a1) (ADFMark.mk "strong" a2)
      (by show getMarkPriority "em" ≤ getMarkPriority "strong"; decide)]
    simp [applyOneMark, markHandlerLookup, markEm, markStrong]
  · rw [applyMarks_pair_swap x hx (ADFMark.mk "em" a1) (ADFMark.mk "strong" a2)
      (by show getMarkPriority "em" < getMarkPriority "strong"; decide)]
    simp [applyOneMark, markHandlerLookup, markEm, markStrong]

/-- Witness for C1 (amended) at `x = "x"`. -/
theorem applyMarks_em_strong_witness :
    ("x" : String) ≠ "" ∧
      applyMarks "x" [ADFMark.mk "em" none, ADFMark.mk "strong" none] =
        "**" ++ ("*" ++ "x" ++ "*") ++ "**" :=
  ⟨by decide, (applyMarks_em_strong "x" (by decide) none none).1⟩

/-- The eight mark types listed in the `getMarkPriority` table. -/
def listedMarkTypes : List String :=
  ["code", "link", "em", "strong", "strike", "underline", "textColor", "subsup"]

/-- The three registered mark types absent from the priority table. -/
def unlistedMarkTypes : List String := ["backgroundColor", "alignment", "indentation"]

theorem listed_priority_le (s : String) (h : s ∈ listedMarkTypes) :
    getMarkPriority s ≤ 8 := by
  simp only [listedMarkTypes, List.mem_cons, List.not_mem_nil, or_false] at h
  rcases h with h | h | h | h | h | h | h | h <;> rw [h] <;> decide

theorem unlisted_priority_eq (s : String) (h : s ∈ unlistedMarkTypes) :
    getMarkPriority s = 100 := by
  simp only [unlistedMarkTypes, List.mem_cons, List.not_mem_nil, or_false] at h
  rcases h with h | h | h <;> rw [h] <;> decide

/-- C10: `backgroundColor`, `alignment` and `indentation` have registered
handlers but no priority-table entry, so each gets priority `100`; on a pair
with a listed mark (priority ≤ 8) they are applied outermost in either input
order; two of them on one node keep their input order (the sort is stable),
and for such an equal-priority pair the output does depend on the input order
of the marks, as `backgroundColor`/`alignment` shows on text `"x"`. -/
theorem unlisted_marks_priority_and_order :
    (getMarkPriority "backgroundColor" = 100 ∧ getMarkPriority "alignment" = 100 ∧
      getMarkPriority "indentation" = 100) ∧
    ((markHandlerLookup "backgroundColor").isSome ∧
      (markHandlerLookup "alignment").isSome ∧
      (markHandlerLookup "indentation").isSome) ∧
    (∀ (x : String) (l t : ADFMark), x ≠ "" →
      l.type ∈ listedMarkTypes → t.type ∈ unlistedMarkTypes →
      applyMarks x [l, t] = applyOneMark (applyOneMark x l) t ∧
      applyMarks x [t, l] = applyOneMark (applyOneMark x l) t) ∧
    (∀ (x : String) (t1 t2 : ADFMark), x ≠ "" →
      t1.type ∈ unlistedMarkTypes → t2.type ∈ unlistedMarkTypes →
      applyMarks x [t1, t2] = applyOneMark (applyOneMark x t1) t2) ∧
    applyMarks "x"
        [ADFMark.mk "backgroundColor" (some { color := some "red" }),
         ADFMark.mk "alignment" (some { align := some "center" })] ≠
      applyMarks "x"
        [ADFMark.mk "alignment" (some { align := some "center" }),
         ADFMark.mk "backgroundColor" (some { color := some "red" })] := by
  refine ⟨⟨by decide, by decide, by decide⟩, ⟨by decide, by decide, by decide⟩,
    ?_, ?_, by decide⟩
  · intro x l t hx hl ht
    have h8 := listed_priority_le l.type hl
    have h100 := unlisted_priority_eq t.type ht
    exact ⟨applyMarks_pair_le x hx l t (by omega),
      applyMarks_pair_swap x hx l t (by omega)⟩
  · intro x t1 t2 hx h1 h2
    have ha := unlisted_priority_eq t1.type h1
    have hb := unlisted_priority_eq t2.type h2
    exact applyMarks_pair_le x hx t1 t2 (by omega)

/-- Witness for C10: `strong` + `backgroundColor` on `"x"`, the equal-priority
pair `backgroundColor`/`alignment`, with the hypotheses discharged. -/
theorem unlisted_marks_priority_and_order_witness :
    applyMarks "x"
        [ADFMark.mk "strong" none,
         ADFMark.mk "backgroundColor" (some { color := some "red" })] =
      applyOneMark (applyOneMark "x" (ADFMark.mk "strong" none))
        (ADFMark.mk "backgroundColor" (some { color := some "red" })) ∧
    applyMarks "x"
        [ADFMark.mk "backgroundColor" (some { color := some "red" }),
         ADFMark.mk "alignment" (some { align := some "center" })] =
      applyOneMark
        (applyOneMark "x" (ADFMark.mk "backgroundColor" (some { color := some "red" })))
        (ADFMark.mk "alignment" (some { align := some "center" })) :=
  ⟨(unlisted_marks_priority_and_order.2.2.1 "x"
      (ADFMark.mk "strong" none)
      (ADFMark.mk "backgroundColor" (some { color := some "red" }))
      (by decide) (by decide) (by decide)).1,
   unlisted_marks_priority_and_order.2.2.2.1 "x"
      (ADFMark.mk "backgroundColor" (some { color := some "red" }))
      (ADFMark.mk "alignment" (some { align := some "center" }))
      (by decide) (by decide) (by decide)⟩

/-! ## Table rendering (second pass of the `table` node handler)

Pass 1 of the handler records trimmed cell texts in a row/column matrix; the
definitions below embed pass 2, which turns a recorded matrix into the
pipe-delimited Markdown table. -/

/-- Pad a recorded row to `n` cells by pushing empty strings
(`while (row.length < columnCount) row.push("")`). -/
def padRowTo (row : List String) (n : Nat) : List String :=
  row ++ List.replicate (n - row.length) ""

/-- Render one table line: `"| " + cells.join(" | ") + " |\n"`. -/
def tableLine (cells : List String) : String :=
  "| " ++ joinSep " | " cells ++ " |\n"

/-- `Math.max(...rows.map(row => row.length))` (rows is nonempty at the call
site, so the `0` seed never decides the result). -/
def tableColumnCount (rows : List (List String)) : Nat :=
  (rows.map List.length).foldl max 0

/-- The lines of the rendered table: padded header row, `---` separator with
one cell per column, then the padded body rows (`rows[1..]`). -/
def renderTableLines (rows : List (List String)) : List String :=
  match rows with
  | [] => []
  | header :: body =>
    let n := tableColumnCount (header :: body)
    tableLine (padRowTo header n) :: tableLine (List.replicate n "---")
      :: body.map (fun r => tableLine (padRowTo r n))

/-- Pass 2 of the `table` handler: empty matrix renders as `""`, otherwise the
concatenated lines followed by a final newline (`return table + "\n"`). -/
def renderTable (rows : List (List String)) : String :=
  match rows with
  | [] => ""
  | _ :: _ => String.join (renderTableLines rows) ++ "\n"

/-- C6: a recorded matrix with row lengths `[2, 3, 1]` renders with exactly 3
cells on every output line — header padded with one empty cell, a separator of
exactly 3 `---` cells, the full 3-cell body row, and the short body row padded
with two empty cells. -/
theorem renderTable_rows_2_3_1 (a b c d e f : String) :
    renderTableLines [[a, b], [c, d, e], [f]] =
      [tableLine [a, b, ""], tableLine ["---", "---", "---"],
       tableLine [c, d, e], tableLine [f, "", ""]] ∧
    (∀ cells ∈ [[a, b, ""], ["---", "---", "---"], [c, d, e], [f, "", ""]],
      cells.length = 3) ∧
    renderTable [[a, b], [c, d, e], [f]] =
      String.join
        [tableLine [a, b, ""], tableLine ["---", "---", "---"],
         tableLine [c, d, e], tableLine [f, "", ""]] ++ "\n" := by
  have hlines : renderTableLines [[a, b], [c, d, e], [f]] =
      [tableLine [a, b, ""], tableLine ["---", "---", "---"],
       tableLine [c, d, e], tableLine [f, "", ""]] := by
    simp [renderTableLines, tableColumnCount, padRowTo, List.replicate]
  refine ⟨hlines, ?_, ?_⟩
  · intro cells h
    fin_cases h <;> rfl
  · simp [renderTable, hlines]

/-! ## ADF document model

`Node = { type: string, attrs?: object, content?: Node[], marks?: Mark[],
text?: string }`.  `attrs` is narrowed to the fields the embedded node
handlers read; `marks` is flattened to a plain list (its only consumer,
`applyMarks`, treats an absent list exactly like an empty one). -/

/-- Node attributes read by the embedded node handlers. -/
structure NodeAttrs where
  level : Option Int := none
  language : Option String := none
  title : Option String := none
deriving Repr

/-- An ADF node. -/
inductive ADFNode where
  | mk (type : String) (attrs : Option NodeAttrs) (content : Option (List ADFNode))
      (marks : List ADFMark) (text : Option String)
deriving Repr

/-- The node-kind string. -/
def ADFNode.type : ADFNode → String
  | .mk t _ _ _ _ => t

/-- The node attributes. -/
def ADFNode.attrs : ADFNode → Option NodeAttrs
  | .mk _ a _ _ _ => a

/-- The child content, `none` when the `content` key is absent. -/
def ADFNode.content : ADFNode → Option (List ADFNode)
  | .mk _ _ c _ _ => c

/-- The marks on the node. -/
def ADFNode.marks : ADFNode → List ADFMark
  | .mk _ _ _ m _ => m

/-- The text payload of a text node. -/
def ADFNode.text : ADFNode → Option String
  | .mk _ _ _ _ t => t

/-- The serialized rich-tree body string (`body.atlas_doc_format.value`),
modelled by its parse outcome: either a string that `JSON.parse` turns into an
ADF document, or one on which `JSON.parse` throws. -/
inductive ADFValue where
  | valid (doc : ADFNode)
  | invalid (raw : String)
deriving Repr

/-- Modelled `JSON.parse` on the serialized body: the runtime `SyntaxError`
message is environment-specific and is modelled by a fixed string. -/
def parseADF : ADFValue → Except String ADFNode
  | .valid doc => .ok doc
  | .invalid _ => .error "Unexpected token in JSON"

/-! ## Page record model

The fields of a retrieved content item that the core reads.  Nested API
wrappers are flattened where only one leaf is read:
`metadata.labels.results[i].name` becomes an entry of `Metadata.labels`,
`metadata.likes.users.results[i].displayName` an entry of `Likes.users`. -/

/-- A user reference (`{ displayName }`). -/
structure UserRef where
  displayName : Option String := none
deriving DecidableEq, Repr

/-- Version metadata (`version.when`, `version.by`). -/
structure Version where
  when : Option String := none
  byUser : Option UserRef := none
deriving DecidableEq, Repr

/-- Like metadata (`metadata.likes`). -/
structure Likes where
  count : Nat := 0
  users : Option (List String) := none
deriving DecidableEq, Repr

/-- Content metadata (`metadata.labels`, `metadata.likes`). -/
structure Metadata where
  labels : Option (List String) := none
  likes : Option Likes := none
deriving DecidableEq, Repr

/-- The scalar fields of a content item shared by the raw search result and
the stream's output page (they are spread through `{ ...page }` in
`convertRawPage`).  `body` is the (optional) serialized rich-tree body. -/
structure PageCore where
  id : String
  title : Option String := none
  type : Option String := none
  status : Option String := none
  version : Option Version := none
  metadata : Option Metadata := none
  body : Option ADFValue := none
deriving Repr

/-! ## Content stream (`content-downloader.ts`: `ContentStream`) -/

/-- A raw ancestor entry; only its `title` is read. -/
structure Ancestor where
  title : String
deriving DecidableEq, Repr

/-- A raw descendant comment as read by `convertRawPage`:
`extensions.location`, `extensions.inlineProperties?.originalText`, and the
ids of `children.comment.results` (an absent children list behaves exactly
like an empty one — both yield no child ids and an empty replies array). -/
structure RawComment where
  id : String
  extLocation : Option String := none
  extOriginalText : Option String := none
  children : List String := []
deriving DecidableEq, Repr

/-- A raw search result (`RawConfluencePage`): the shared core plus the
ancestor list and the flat descendant-comment list
(`page.descendants?.comment?.results`). -/
structure RawPage where
  core : PageCore
  ancestors : Option (List Ancestor) := none
  descendantComments : Option (List RawComment) := none
deriving Repr

/-- A processed comment.  In the source, pass 2 mutates the shared map entry
`commentMap.get(comment.id)!`; the aliased object graph is modelled by
identifier references: each entry of `replies` is the id of the referenced
processed comment, or `none` for the `undefined` produced when
`commentMap.get(c.id)` misses (the TypeScript `!` is erased at runtime and
raises no error). -/
structure ProcessedComment where
  id : String
  location : Option String
  originalText : Option String
  replies : List (Option String)
deriving DecidableEq, Repr

/-- The key set of `commentMap` (one key per raw comment id). -/
def rawCommentIds (flat : List RawComment) : List String :=
  flat.map RawComment.id

/-- All ids appearing in any comment's nested children list
(`childCommentIds`). -/
def allChildIds (flat : List RawComment) : List String :=
  flat.flatMap RawComment.children

/-- `commentMap.get(cid)` in pass 2: defined iff `cid` is a key. -/
def resolveReply (flat : List RawComment) (cid : String) : Option String :=
  if (rawCommentIds flat).contains cid then some cid else none

/-- The processed comment for one raw comment: pass-1 construction
(location and originalText from the extensions) together with its pass-2
replies (`comment.children?.comment?.results.map((c) => commentMap.get(c.id)!)
?? []`). -/
def processComment (flat : List RawComment) (c : RawComment) : ProcessedComment :=
  { id := c.id
    location := c.extLocation
    originalText := c.extOriginalText
    replies := c.children.map (resolveReply flat) }

/-- The stream's output record: the spread core, the derived ancestor path,
and the root comment set. -/
structure StreamPage where
  core : PageCore
  path : List String
  comments : List ProcessedComment
deriving Repr

/-- `convertRawPage`: map ancestors to titles (`?? []`), and keep as roots
exactly the comments whose id is in no comment's children list, in flat-list
order. -/
def convertRawPage (raw : RawPage) : StreamPage :=
  let flat := raw.descendantComments.getD []
  { core := raw.core
    path := (raw.ancestors.getD []).map Ancestor.title
    comments :=
      (flat.filter (fun c => !((allChildIds flat).contains c.id))).map
        (processComment flat) }

/-- One response of the search API: the raw results and the opaque
continuation link (`_links.next`); the unread `start`/`limit`/`size` fields
are omitted. -/
structure SearchResponse where
  results : List RawPage
  next : Option String := none

/-- The `_read` loop of `ContentStream`, driven until end-of-sequence: each
step issues one fetch (`none` = the initial CQL query, `some u` = a GET of
the verbatim continuation URL), pushes `convertRawPage` of every raw result,
and ends (the `push(null)` — the `Bool` component) exactly when the response
carries no `next` link.  `fuel` bounds the number of fetches. -/
def streamRun (fetch : Option String → SearchResponse) :
    Option String → Nat → List StreamPage × Bool
  | _, 0 => ([], false)
  | cur, fuel + 1 =>
    let r := fetch cur
    let pages := r.results.map convertRawPage
    match r.next with
    | none => (pages, true)
    | some u =>
      let rest := streamRun fetch (some u) fuel
      (pages ++ rest.1, rest.2)

/-- The server behaviour of the pagination claim: starting from request
`cur`, the server serves the responses `rs` in order, every response except
the last carrying a continuation link that the next fetch follows verbatim,
and the last carrying none. -/
def ServesChain (fetch : Option String → SearchResponse) :
    Option String → List SearchResponse → Prop
  | _, [] => True
  | cur, [r] => fetch cur = r ∧ r.next = none
  | cur, r :: r2 :: rest =>
    fetch cur = r ∧ ∃ u, r.next = some u ∧ ServesChain fetch (some u) (r2 :: rest)

theorem streamRun_of_servesChain (fetch : Option String → SearchResponse) :
    ∀ (rs : List SearchResponse) (cur : Option String), rs ≠ [] →
      ServesChain fetch cur rs →
      streamRun fetch cur rs.length =
        (rs.flatMap (fun r => r.results.map convertRawPage), true) := by
  intro rs
  induction rs with
  | nil => intro cur h; exact absurd rfl h
  | cons r rest ih =>
    intro cur _ hserve
    match rest, hserve with
    | [], ⟨hfetch, hnext⟩ =>
      simp [streamRun, hfetch, hnext]
    | r2 :: rest', ⟨hfetch, u, hnext, hchain⟩ =>
      have htail := ih (some u) (by simp) hchain
      rw [List.length_cons]
      generalize hn : (r2 :: rest').length = n at htail
      simp only [streamRun, hfetch, hnext, htail, List.flatMap_cons]

/-- C5: against any server behaviour serving `B` successive responses where
every response except the last carries a `_links.next` continuation link, the
stream yields exactly the converted documents of all responses in order —
`N` documents in total, whatever their distribution over the batches — and
then signals end-of-sequence; termination happens exactly at the response
with no next link, never because a batch is short. -/
theorem contentStream_pagination (fetch : Option String → SearchResponse)
    (rs : List SearchResponse) (hne : rs ≠ [])
    (hserve : ServesChain fetch none rs) :
    streamRun fetch none rs.length =
      (rs.flatMap (fun r => r.results.map convertRawPage), true) ∧
    (streamRun fetch none rs.length).1.length =
      (rs.map (fun r => r.results.length)).sum := by
  have h := streamRun_of_servesChain fetch rs none hne hserve
  refine ⟨h, ?_⟩
  rw [h]
  clear h hserve hne
  induction rs with
  | nil => rfl
  | cons r rest ih => simp only [List.flatMap_cons, List.length_append,
      List.length_map, List.map_cons, List.sum_cons, ih]

/-- Server example for the pagination witness: batch of 2 pages with a next
link, then batch of 1 page without. -/
def exampleResponses : List SearchResponse :=
  [{ results := [{ core := { id := "1" } }, { core := { id := "2" } }],
     next := some "u1" },
   { results := [{ core := { id := "3" } }] }]

/-- Fetch function realizing `exampleResponses`. -/
def exampleFetch : Option String → SearchResponse
  | none =>
    { results := [{ core := { id := "1" } }, { core := { id := "2" } }],
      next := some "u1" }
  | some _ => { results := [{ core := { id := "3" } }] }

/-- Witness for C5: 3 documents over 2 batches. -/
theorem contentStream_pagination_witness :
    streamRun exampleFetch none exampleResponses.length =
      (exampleResponses.flatMap (fun r => r.results.map convertRawPage), true) ∧
    (streamRun exampleFetch none exampleResponses.length).1.length =
      (exampleResponses.map (fun r => r.results.length)).sum :=
  contentStream_pagination exampleFetch exampleResponses (by simp [exampleResponses])
    ⟨rfl, "u1", rfl, rfl, rfl⟩

/-- C4 counterexample: one comment `X` that lists itself among its children.
Its id appears in no *other* comment's children list, yet `convertRawPage`
keeps it out of the root set (`childCommentIds` is collected over *all*
comments' children lists, the comment's own included), so the claimed
equivalence fails. -/
theorem convertRawPage_root_iff_counterexample :
    ¬ (("X" ∈ ((convertRawPage
            { core := { id := "p1" },
              descendantComments :=
                some [{ id := "X", children := ["X"] }] }).comments.map
          ProcessedComment.id)) ↔
        ¬ ∃ d ∈ ([{ id := "X", children := ["X"] }] : List RawComment),
            d ≠ { id := "X", children := ["X"] } ∧ "X" ∈ d.children) := by
  decide

/-- C4 (amended): a descendant comment is placed in the root set iff its
identifier appears in no comment's children list — its own children list
included (a self-listing comment is excluded from the roots); in particular
raw comments A (children=[B]) and B yield roots `[A]`, `A.replies = [B]`,
and B absent from the root set. -/
theorem convertRawPage_root_iff :
    (∀ (raw : RawPage) (flat : List RawComment),
      raw.descendantComments = some flat →
      ∀ c ∈ flat,
        (c.id ∈ (convertRawPage raw).comments.map ProcessedComment.id ↔
          c.id ∉ allChildIds flat)) ∧
    (∀ (core : PageCore) (anc : Option (List Ancestor)) (A B : RawComment),
      A.id ≠ B.id → A.children = [B.id] → B.children = [] →
      (convertRawPage
            { core := core, ancestors := anc,
              descendantComments := some [A, B] }).comments =
          [processComment [A, B] A] ∧
        (processComment [A, B] A).replies = [some B.id] ∧
        B.id ∉ (convertRawPage
            { core := core, ancestors := anc,
              descendantComments := some [A, B] }).comments.map
            ProcessedComment.id) := by
  constructor
  · intro raw flat hflat c hc
    simp only [convertRawPage, hflat, Option.getD_some, List.map_map,
      List.mem_map, Function.comp, List.mem_filter, processComment,
      Bool.not_eq_eq_eq_not, Bool.not_true, List.contains, List.elem_iff,
      decide_eq_false_iff_not]
    constructor
    · rintro ⟨d, ⟨hd, hnotin⟩, hid⟩
      rw [hid] at hnotin
      intro hmem
      rw [← List.elem_iff] at hmem
      rw [hnotin] at hmem
      exact Bool.false_ne_true hmem
    · intro h
      refine ⟨c, ⟨hc, ?_⟩, rfl⟩
      cases hel : List.elem c.id (allChildIds flat)
      · rfl
      · exact absurd (List.elem_iff.mp hel) h
  · intro core anc A B hne hA hB
    refine ⟨?_, ?_, ?_⟩
    · simp [convertRawPage, allChildIds, hA, hB, List.filter,
        List.contains, List.elem_iff, hne, Ne.symm hne]
    · simp [processComment, hA, resolveReply, rawCommentIds,
        List.contains, List.elem_iff]
    · simp [convertRawPage, allChildIds, hA, hB, List.filter,
        List.contains, List.elem_iff, hne, Ne.symm hne, processComment]

/-- Raw comment A of the C4 scenario witness. -/
def exampleCommentA : RawComment := { id := "A", children := ["B"] }

/-- Raw comment B of the C4 scenario witness. -/
def exampleCommentB : RawComment := { id := "B" }

/-- The flat descendant list of the C4 scenario witness. -/
def exampleFlatAB : List RawComment := [exampleCommentA, exampleCommentB]

/-- The raw page of the C4 scenario witness. -/
def exampleRawAB : RawPage :=
  { core := { id := "p" }, ancestors := none,
    descendantComments := some exampleFlatAB }

/-- Witness for C4 (amended): both conjuncts instantiated on the A/B page. -/
theorem convertRawPage_root_iff_witness :
    ("A" ∈ (convertRawPage exampleRawAB).comments.map ProcessedComment.id ↔
      "A" ∉ allChildIds exampleFlatAB) ∧
    ((convertRawPage exampleRawAB).comments =
        [processComment exampleFlatAB exampleCommentA] ∧
      (processComment exampleFlatAB exampleCommentA).replies = [some "B"] ∧
      "B" ∉ (convertRawPage exampleRawAB).comments.map ProcessedComment.id) :=
  ⟨convertRawPage_root_iff.1 exampleRawAB exampleFlatAB rfl exampleCommentA
      (by decide),
   convertRawPage_root_iff.2 { id := "p" } none exampleCommentA exampleCommentB
      (by decide) rfl rfl⟩

/-- C9: replies are resolved only through the map keyed by the flat
descendant list: a child id absent from that list produces an `undefined`
(`none`) entry in the replies array, with no error raised (`convertRawPage`
still returns normally); every reply entry is a defined comment exactly under
the precondition that all referenced child ids appear in the flat list.  The
root comments of `convertRawPage` are precisely such processed comments. -/
theorem convertRawPage_reply_resolution :
    (∀ (flat : List RawComment) (c : RawComment) (cid : String),
      cid ∈ c.children → cid ∉ rawCommentIds flat →
      none ∈ (processComment flat c).replies) ∧
    (∀ (flat : List RawComment) (c : RawComment),
      (∀ cid ∈ c.children, cid ∈ rawCommentIds flat) →
      ∀ r ∈ (processComment flat c).replies, r.isSome) ∧
    (∀ (raw : RawPage) (flat : List RawComment),
      raw.descendantComments = some flat →
      ∀ pc ∈ (convertRawPage raw).comments, ∃ c ∈ flat, pc = processComment flat c) := by
  refine ⟨?_, ?_, ?_⟩
  · intro flat c cid hmem habsent
    simp only [processComment, List.mem_map]
    refine ⟨cid, hmem, ?_⟩
    simp [resolveReply, List.contains, List.elem_iff, habsent]
  · intro flat c hall r hr
    simp only [processComment, List.mem_map] at hr
    obtain ⟨cid, hcid, hres⟩ := hr
    rw [← hres]
    simp [resolveReply, List.contains, List.elem_iff, hall cid hcid]
  · intro raw flat hflat pc hpc
    simp only [convertRawPage, hflat, Option.getD_some, List.mem_map,
      List.mem_filter] at hpc
    obtain ⟨c, ⟨hc, _⟩, hpc⟩ := hpc
    exact ⟨c, hc, hpc.symm⟩

/-- Witness for C9: a dangling child reference `Y` yields a `none` entry;
the well-referenced A/B page yields only defined entries; and the A/B page's
root comment is a processed flat-list comment. -/
theorem convertRawPage_reply_resolution_witness :
    none ∈ (processComment [{ id := "X", children := ["Y"] }]
        { id := "X", children := ["Y"] }).replies ∧
    (∀ r ∈ (processComment exampleFlatAB exampleCommentA).replies, r.isSome) ∧
    (∃ c ∈ exampleFlatAB,
      processComment exampleFlatAB exampleCommentA = processComment exampleFlatAB c) :=
  ⟨convertRawPage_reply_resolution.1 [{ id := "X", children := ["Y"] }]
      { id := "X", children := ["Y"] } "Y" (by decide) (by decide),
   convertRawPage_reply_resolution.2.1 exampleFlatAB exampleCommentA (by decide),
   ⟨exampleCommentA, by decide, rfl⟩⟩

/-! ## Conversion engine (`ADFMarkdownConverter`)

The depth-first node walk.  The dispatch table is embedded for a
representative subset of the registered handlers (`doc`, `paragraph`,
`heading`, `text`, `bulletList`, `listItem`, `orderedList`, `codeBlock`,
`blockquote`, `hardBreak`, `rule`, `panel`) together with the source's
unknown-kind fallback; the remaining handlers follow the same
shape and none is needed by the claims below.  A handler can throw at
runtime — e.g. `"#".repeat(Math.min(level, 6))` raises `RangeError` for a
negative heading level — so the walk lives in `Except String`. -/

mutual

/-- `convertNode`: the `text` fast path (sanitize, then marks), then the
dispatch table, then the log-and-fall-back branch for unknown kinds. -/
def convertNode : ADFNode → Except String String
  | ADFNode.mk ty attrs content marks text =>
    if ty = "text" then
      match text with
      | some t => pure (applyMarks (sanitizeText t) marks)
      | none => pure ""
    else if ty = "doc" then convertNodesOpt content
    else if ty = "paragraph" then do
      let s ← convertNodesOpt content
      pure (s ++ "\n\n")
    else if ty = "heading" then do
      let level := jsOrInt (attrs.bind NodeAttrs.level) 1
      if level < 0 then throw "Invalid count value"
      else do
        let s ← convertNodesOpt content
        pure (strRepeat "#" (min level 6).toNat ++ " " ++ s ++ "\n\n")
    else if ty = "bulletList" then
      match content with
      | none => pure ""
      | some cs => do
        let s ← convertNodes cs
        pure (s ++ "\n")
    else if ty = "listItem" then do
      let s ← convertNodesOpt content
      pure ("- " ++ s)
    else if ty = "orderedList" then
      match content with
      | none => pure ""
      | some cs => do
        let s ← convertOrdered 0 cs
        pure (s ++ "\n")
    else if ty = "codeBlock" then do
      let language := jsOrStr (attrs.bind NodeAttrs.language) ""
      let s ← convertNodesOpt content
      pure ("```" ++ language ++ "\n" ++ s ++ "\n```\n\n")
    else if ty = "blockquote" then do
      let s ← convertNodesOpt content
      let quoted := (s.splitOn "\n").map (fun l => if l = "" then ">" else "> " ++ l)
      pure (joinSep "\n" quoted ++ "\n\n")
    else if ty = "hardBreak" then pure "\n"
    else if ty = "rule" then pure "---\n\n"
    else if ty = "panel" then do
      let title := jsOrStr (attrs.bind NodeAttrs.title) ""
      let start := if title = "" then "> " else "> " ++ "**" ++ title ++ "**\n> \n"
      let s ← convertNodesOpt content
      let lines := (s.trim.splitOn "\n").map (fun l => "> " ++ l)
      pure (start ++ joinSep "\n" lines ++ "\n\n")
    else
      match content with
      | some cs => convertNodes cs
      | none => pure ""

/-- `convertNodes`: convert and join; an exception in any child propagates. -/
def convertNodes : List ADFNode → Except String String
  | [] => pure ""
  | n :: ns => do
    let s ← convertNode n
    let rest ← convertNodes ns
    pure (s ++ rest)

/-- The `orderedList` item loop: `result += \x7b index + 1 \x7d. ...`. -/
def convertOrdered : Nat → List ADFNode → Except String String
  | _, [] => pure ""
  | i, n :: ns => do
    let s ← convertNode n
    let rest ← convertOrdered (i + 1) ns
    pure (toString (i + 1) ++ ". " ++ s ++ rest)

/-- An optional child list (`node.content` may be absent). -/
def convertNodesOpt : Option (List ADFNode) → Except String String
  | none => pure ""
  | some cs => convertNodes cs

end

/-! ## Comment rendering -/

/-- A comment as consumed by the converter (the stream's tree-shaped
`ConfluenceComment`): the extension fields read by `processCommentTrees`,
the flattened `location`/`originalText`, the two body variants, version
metadata, and the nested replies. -/
inductive CComment where
  | mk (id : String) (extLocation : Option String)
      (extOriginalSelection : Option String) (extMarkerRef : Option String)
      (location : Option String) (originalText : Option String)
      (bodyAdf : Option ADFValue) (bodyStorage : Option String)
      (version : Option Version) (replies : List CComment)

/-- Comment identifier. -/
def CComment.id : CComment → String
  | .mk i _ _ _ _ _ _ _ _ _ => i

/-- Nested replies. -/
def CComment.replies : CComment → List CComment
  | .mk _ _ _ _ _ _ _ _ _ r => r

/-- An enriched comment (`EnrichedComment`): level-annotated, with derived
location and original selection. -/
inductive EnrichedComment where
  | mk (id : String) (level : Nat) (location : String)
      (originalSelection : Option String) (markerRef : Option String)
      (bodyAdf : Option ADFValue) (bodyStorage : Option String)
      (version : Option Version) (isTopOfThread : Bool)
      (replies : List EnrichedComment)

/-- Comment nesting level. -/
def EnrichedComment.level : EnrichedComment → Nat
  | .mk _ l _ _ _ _ _ _ _ _ => l

/-- Derived location. -/
def EnrichedComment.location : EnrichedComment → String
  | .mk _ _ l _ _ _ _ _ _ _ => l

/-- Original selection of an inline thread. -/
def EnrichedComment.originalSelection : EnrichedComment → Option String
  | .mk _ _ _ o _ _ _ _ _ _ => o

/-- Flattened reply list (see `processCommentTrees`). -/
def EnrichedComment.replies : EnrichedComment → List EnrichedComment
  | .mk _ _ _ _ _ _ _ _ _ r => r

/-- Modelled locale date rendering: `toLocaleDateString("en-US", ...)` and
`toLocaleTimeString("en-US", ...)` depend on the runtime locale/timezone
environment, which has no shallow embedding; the composite is modelled as a
concrete tagging of the raw `version.when` timestamp. -/
def formatLocaleDate (when : String) : String := "@" ++ when

/-- `processCommentTrees`: enrich every comment with its level and derived
location/selection; the result list holds each comment followed by its
(recursively flattened) replies, and the same flattened reply list is also
stored in the comment's `replies` field, exactly as in the source. -/
def processCommentTrees : List CComment → Nat → List EnrichedComment
  | [], _ => []
  | CComment.mk id extLoc extSel extMarker loc origText bodyAdf bodyStorage
      version replies :: rest, level =>
    let location0 := match extLoc with
      | some l => l
      | none => "footer"
    let location := match loc with
      | some l => if l = "" then location0 else l
      | none => location0
    let selection0 := extSel
    let selection := match origText with
      | some t => if t = "" then selection0 else some t
      | none => selection0
    let enrichedReplies := processCommentTrees replies (level + 1)
    let enriched := EnrichedComment.mk id level location selection extMarker
      bodyAdf bodyStorage version (level == 0) enrichedReplies
    enriched :: (enrichedReplies ++ processCommentTrees rest level)

/-- `processComments`: recompute the root set of the input list (a comment is
kept iff its id is not among the ids of any input comment's direct replies)
and enrich the resulting trees from level 0. -/
def processComments (comments : List CComment) : List EnrichedComment :=
  if comments.isEmpty then []
  else
    let replyIds := comments.flatMap (fun c => c.replies.map CComment.id)
    let rootComments := comments.filter (fun c => !(replyIds.contains c.id))
    processCommentTrees rootComments 0

/-- The line-indentation loop of `formatComment`: trim each line of the
content, emit it under the thread indentation, keeping an indented blank line
for interior empty lines but not for a trailing one. -/
def indentContentLines (indentation : String) : List String → String
  | [] => ""
  | [x] =>
    let t := x.trim
    if t = "" then "" else indentation ++ t ++ "\n"
  | x :: rest =>
    let t := x.trim
    (if t = "" then indentation ++ "\n" else indentation ++ t ++ "\n") ++
      indentContentLines indentation rest

/-- `formatComment`: the `> `-indented header (author, date, reply marker),
the body converted through the node walk with its own try/catch, and the
indented content lines. -/
def formatComment (c : EnrichedComment) : String :=
  match c with
  | EnrichedComment.mk _ level _ _ _ bodyAdf bodyStorage version _ _ =>
    let author := jsOrStr ((version.bind Version.byUser).bind UserRef.displayName)
      "Unknown"
    let dateStr := match version.bind Version.when with
      | some w => if w = "" then "Unknown date" else formatLocaleDate w
      | none => "Unknown date"
    let indentation := strRepeat "> " (level + 1)
    let header := indentation ++ "#### " ++ author ++ " - " ++ dateStr
    let header := if level > 0 then header ++ " (Reply)" else header
    let header := header ++ "\n" ++ indentation ++ "\n"
    let commentContent := match bodyAdf with
      | some v =>
        match parseADF v with
        | .ok adf =>
          match convertNode adf with
          | .ok s => s
          | .error e => "**Error converting comment content:** " ++ e
        | .error e => "**Error converting comment content:** " ++ e
      | none => jsOrStr bodyStorage ""
    let withContent :=
      if commentContent = "" then header
      else header ++ indentContentLines indentation (commentContent.splitOn "\n")
    withContent ++ indentation ++ "\n"

mutual

/-- `formatNestedReplies`: a reply and, recursively, its own replies. -/
def formatNestedReplies : EnrichedComment → String
  | EnrichedComment.mk id level loc sel marker bodyAdf bodyStorage version top
      replies =>
    formatComment (EnrichedComment.mk id level loc sel marker bodyAdf
      bodyStorage version top replies) ++ formatRepliesList replies

/-- The reply loop shared by `formatCommentThread`/`formatNestedReplies`. -/
def formatRepliesList : List EnrichedComment → String
  | [] => ""
  | c :: cs => formatNestedReplies c ++ formatRepliesList cs

end

/-- `formatCommentThread`: the root comment followed by every reply. -/
def formatCommentThread (c : EnrichedComment) : String :=
  formatComment c ++ formatRepliesList c.replies

/-- One inline thread in `addComments`: the quoted referenced text (once per
thread, when present and nonempty) before the thread itself. -/
def renderInlineThread (t : EnrichedComment) : String :=
  (match t.originalSelection with
    | some sel =>
      if sel = "" then "" else "> **Referenced text:** \"" ++ sel ++ "\"\n>\n"
    | none => "") ++ formatCommentThread t ++ "\n"

/-- `addComments`: partition the level-0 threads into inline (first) and
footer groups, each under its own section heading. -/
def addComments (markdown : String) (comments : List EnrichedComment) : String :=
  if comments.isEmpty then markdown
  else
    let topLevel := comments.filter (fun c => c.level == 0)
    let inlineThreads := topLevel.filter (fun c => c.location == "inline")
    let footerThreads := topLevel.filter (fun c => c.location == "footer")
    let result := markdown
    let result :=
      if inlineThreads.length > 0 then
        result ++ "\n\n## Inline Comments\n\n" ++
          String.join (inlineThreads.map renderInlineThread)
      else result
    let result :=
      if footerThreads.length > 0 then
        result ++ "\n\n## Footer Comments\n\n" ++
          String.join (footerThreads.map (fun t => formatCommentThread t ++ "\n"))
      else result
    result

/-! ## Frontmatter and `convertPage` -/

/-- The page record consumed by `convertPage`: the shared core, the derived
ancestor path and the reconstructed comment forest (`ConfluencePage` of the
content stream, with the comment graph in its tree reading). -/
structure ConfluencePage where
  core : PageCore
  path : List String := []
  comments : List CComment := []

/-- `.replace(/"/g, "\\\"")`: escape every double quote. -/
def escQuotes (s : String) : String :=
  String.mk (replaceAllChar '"' ['\\', '"'] s.data)

/-- The four unconditional frontmatter lines (title, id, type, status). -/
def baseLines (core : PageCore) : List String :=
  ["title: \"" ++ jsOrStr (core.title.map escQuotes) "Untitled" ++ "\"",
   "id: \"" ++ core.id ++ "\"",
   "type: " ++ jsOrStr core.type "page",
   "status: " ++ jsOrStr core.status "unknown"]

/-- The version block: `created` when a version exists, `createdBy` when it
also carries an author. -/
def versionLines : Option Version → List String
  | none => []
  | some v =>
    ("created: " ++ jsOrStr v.when "unknown") ::
      (match v.byUser with
        | none => []
        | some u =>
          ["createdBy: \"" ++ jsOrStr (u.displayName.map escQuotes) "Unknown" ++
            "\""])

/-- The path line, pushed only for a nonempty path:
`page.path.join(" > ")` with quotes escaped. -/
def pathLine (path : List String) : List String :=
  if path.isEmpty then []
  else ["path: \"" ++ escQuotes (joinSep " > " path) ++ "\""]

/-- The labels line, pushed only for a nonempty label list. -/
def labelLines : Option Metadata → List String
  | none => []
  | some md =>
    match md.labels with
    | none => []
    | some ls =>
      if ls.isEmpty then []
      else
        ["labels: [" ++
          joinSep ", " (ls.map (fun n => "\"" ++ escQuotes n ++ "\"")) ++ "]"]

/-- The likes block, pushed only for a positive like count. -/
def likeLines : Option Metadata → List String
  | none => []
  | some md =>
    match md.likes with
    | none => []
    | some lk =>
      if lk.count > 0 then
        ("likes: " ++ toString lk.count) ::
          (match lk.users with
            | none => []
            | some us =>
              if us.isEmpty then []
              else
                ["likedBy: [" ++
                  joinSep ", " (us.map (fun u => "\"" ++ escQuotes u ++ "\"")) ++
                  "]"])
      else []

/-- `createFrontmatter`: the yaml lines in push order inside a `---` fence. -/
def frontmatterLines (page : ConfluencePage) : List String :=
  baseLines page.core ++ versionLines page.core.version ++
    pathLine page.path ++ labelLines page.core.metadata ++
    likeLines page.core.metadata

/-- The rendered frontmatter string. -/
def createFrontmatter (page : ConfluencePage) : String :=
  "---\n" ++ joinSep "\n" (frontmatterLines page) ++ "\n---\n\n"

/-- The likes suffix appended to the body markdown when the page has a
positive like count, with the likers' names when present. -/
def addLikesInfo (page : ConfluencePage) (markdown : String) : String :=
  match page.core.metadata with
  | none => markdown
  | some md =>
    match md.likes with
    | none => markdown
    | some lk =>
      if lk.count > 0 then
        let likesInfo := "**Likes:** " ++ toString lk.count
        match lk.users with
        | some us =>
          if us.length > 0 then
            markdown ++ "\n\n" ++ likesInfo ++ " (" ++ joinSep ", " us ++ ")"
          else markdown ++ "\n\n" ++ likesInfo
        | none => markdown ++ "\n\n" ++ likesInfo
      else markdown

/-- The try-block of `convertPage`: missing body value throws, the body is
parsed as JSON, converted, decorated with likes and comments, and prefixed
with the frontmatter; every internal failure surfaces as `Except.error`. -/
def convertPageInner (page : ConfluencePage) : Except String String := do
  let value ← match page.core.body with
    | none => Except.error "No ADF content found in page body"
    | some v => Except.ok v
  let adfContent ← parseADF value
  let markdown ← convertNode adfContent
  let markdown := addLikesInfo page markdown
  let enriched := processComments page.comments
  let markdown := addComments markdown enriched
  pure (createFrontmatter page ++ markdown)

/-- `convertPage`: the try/catch — the happy path returns the converted
document, any internal error yields the literal error banner. -/
def convertPage (page : ConfluencePage) : String :=
  match convertPageInner page with
  | .ok s => s
  | .error e => "**Error converting page content:** " ++ e ++ "\n\n"

/-- Whether `pat` is a leading sequence of `l`. -/
def leadsWith : List Char → List Char → Bool
  | [], _ => true
  | _ :: _, [] => false
  | p :: ps, c :: cs => p == c && leadsWith ps cs

/-- Whether `pat` occurs contiguously anywhere in `l`. -/
def occursIn (pat : List Char) : List Char → Bool
  | [] => leadsWith pat []
  | l@(_ :: rest) => leadsWith pat l || occursIn pat rest

/-- C3: `convertPage` is total: a missing body value, a body that fails to
parse as JSON, and a handler exception raised mid-walk are all caught inside
the call and degrade to the error-banner string, and a successful walk
returns the frontmatter-prefixed document — so every input page yields a
`String` to the caller and document-level failures are recovered locally. -/
theorem convertPage_total (page : ConfluencePage) :
    (page.core.body = none →
      convertPage page =
        "**Error converting page content:** No ADF content found in page body\n\n") ∧
    (∀ raw, page.core.body = some (ADFValue.invalid raw) →
      convertPage page =
        "**Error converting page content:** Unexpected token in JSON\n\n") ∧
    (∀ doc, page.core.body = some (ADFValue.valid doc) →
      (∀ e, convertNode doc = Except.error e →
        convertPage page = "**Error converting page content:** " ++ e ++ "\n\n") ∧
      (∀ md, convertNode doc = Except.ok md →
        convertPage page =
          createFrontmatter page ++
            addComments (addLikesInfo page md) (processComments page.comments))) := by
  refine ⟨?_, ?_, ?_⟩
  · intro h
    simp [convertPage, convertPageInner, h, Bind.bind, Except.bind,
      Functor.map, Except.map]
  · intro raw h
    simp [convertPage, convertPageInner, h, parseADF, Bind.bind, Except.bind,
      Functor.map, Except.map]
  · intro doc h
    constructor
    · intro e he
      simp [convertPage, convertPageInner, h, parseADF, he, Bind.bind,
        Except.bind, Functor.map, Except.map]
    · intro md hmd
      simp [convertPage, convertPageInner, h, parseADF, hmd, Bind.bind,
        Except.bind, Functor.map, Except.map, Pure.pure, Except.pure]

/-- Example page with no body value. -/
def examplePageNoBody : ConfluencePage := { core := { id := "1", title := some "T" } }

/-- Example document whose walk throws: heading level `-1` makes
`"#".repeat` raise. -/
def exampleBadHeadingDoc : ADFNode :=
  ADFNode.mk "doc" none
    (some [ADFNode.mk "heading" (some { level := some (-1) }) (some []) [] none])
    [] none

/-- Example page whose node walk raises mid-walk. -/
def examplePageThrowingWalk : ConfluencePage :=
  { core := { id := "3", body := some (ADFValue.valid exampleBadHeadingDoc) } }

/-- Example document that converts cleanly. -/
def exampleGoodDoc : ADFNode :=
  ADFNode.mk "doc" none
    (some [ADFNode.mk "paragraph" none
      (some [ADFNode.mk "text" none none [] (some "hello")]) [] none])
    [] none

/-- Example page that converts cleanly. -/
def examplePageGood : ConfluencePage :=
  { core := { id := "4", body := some (ADFValue.valid exampleGoodDoc) } }

/-- Witness for C3: the three failure modes and the happy path, each at a
concrete page. -/
theorem convertPage_total_witness :
    convertPage examplePageNoBody =
      "**Error converting page content:** No ADF content found in page body\n\n" ∧
    convertPage examplePageThrowingWalk =
      "**Error converting page content:** Invalid count value\n\n" ∧
    convertPage examplePageGood =
      createFrontmatter examplePageGood ++
        addComments (addLikesInfo examplePageGood "hello\n\n")
          (processComments examplePageGood.comments) :=
  ⟨(convertPage_total examplePageNoBody).1 rfl,
   ((convertPage_total examplePageThrowingWalk).2.2 exampleBadHeadingDoc rfl).1
      "Invalid count value" rfl,
   ((convertPage_total examplePageGood).2.2 exampleGoodDoc rfl).2 "hello\n\n" rfl⟩

/-- C2 counterexample: for the page with id `12345`, title `Mypage` and a
missing rich-tree body, the fallback document is the bare error banner — it
contains neither the page's id nor its title (so no minimal frontmatter) and
no dump of the raw body. -/
theorem convertPage_fallback_counterexample :
    convertPage { core := { id := "12345", title := some "Mypage" } } =
      "**Error converting page content:** No ADF content found in page body\n\n" ∧
    occursIn "12345".data
      (convertPage { core := { id := "12345", title := some "Mypage" } }).data =
      false ∧
    occursIn "Mypage".data
      (convertPage { core := { id := "12345", title := some "Mypage" } }).data =
      false :=
  ⟨rfl, by decide, by decide⟩

/-- C2 (amended): whenever conversion of a document fails internally (the
rich-tree body is missing, fails to parse as JSON, or a handler throws
mid-walk), `convertPage` returns the fallback string
`**Error converting page content:** <message>` followed by a blank line —
an error banner only, with no frontmatter (no title or id) and no dump of
the raw body. -/
theorem convertPage_fallback (page : ConfluencePage) :
    (∀ e, convertPageInner page = Except.error e →
      convertPage page = "**Error converting page content:** " ++ e ++ "\n\n") ∧
    (page.core.body = none →
      convertPageInner page = Except.error "No ADF content found in page body") ∧
    (∀ raw, page.core.body = some (ADFValue.invalid raw) →
      convertPageInner page = Except.error "Unexpected token in JSON") ∧
    (∀ doc e, page.core.body = some (ADFValue.valid doc) →
      convertNode doc = Except.error e →
      convertPageInner page = Except.error e) := by
  refine ⟨?_, ?_, ?_, ?_⟩
  · intro e he
    simp [convertPage, he]
  · intro h
    simp [convertPageInner, h, Bind.bind, Except.bind, Functor.map, Except.map]
  · intro raw h
    simp [convertPageInner, h, parseADF, Bind.bind, Except.bind, Functor.map,
      Except.map]
  · intro doc e h he
    simp [convertPageInner, h, parseADF, he, Bind.bind, Except.bind,
      Functor.map, Except.map]

/-- Example page whose body value is not valid JSON. -/
def examplePageBadJson : ConfluencePage :=
  { core := { id := "77", title := some "Broken",
              body := some (ADFValue.invalid "not json") } }

/-- Witness for C2 (amended) at the unparseable-body page. -/
theorem convertPage_fallback_witness :
    convertPageInner examplePageBadJson =
      Except.error "Unexpected token in JSON" ∧
    convertPage examplePageBadJson =
      "**Error converting page content:** Unexpected token in JSON\n\n" :=
  ⟨(convertPage_fallback examplePageBadJson).2.2.1 "not json" rfl,
   (convertPage_fallback examplePageBadJson).1 "Unexpected token in JSON"
     ((convertPage_fallback examplePageBadJson).2.2.1 "not json" rfl)⟩

/-- C8: a raw document with ancestor list `[Root, Child]` gets
`path = ["Root", "Child"]` (titles in API order), and the frontmatter
generated for the resulting document contains the line
`path: "Root > Child"`, whatever the rest of the record holds. -/
theorem ancestors_path_frontmatter (raw : RawPage)
    (h : raw.ancestors = some [Ancestor.mk "Root", Ancestor.mk "Child"]) :
    (convertRawPage raw).path = ["Root", "Child"] ∧
    ∀ comments : List CComment,
      "path: \"Root > Child\"" ∈
        frontmatterLines
          { core := raw.core, path := (convertRawPage raw).path,
            comments := comments } := by
  have hpath : (convertRawPage raw).path = ["Root", "Child"] := by
    simp [convertRawPage, h]
  refine ⟨hpath, ?_⟩
  intro comments
  have hmem : "path: \"Root > Child\"" ∈ pathLine ["Root", "Child"] := by decide
  simp only [frontmatterLines, hpath, List.mem_append]
  tauto

/-- The raw page of the C8 witness. -/
def exampleRawWithAncestors : RawPage :=
  { core := { id := "9", title := some "Leaf" },
    ancestors := some [Ancestor.mk "Root", Ancestor.mk "Child"] }

/-- Witness for C8 at a concrete raw page. -/
theorem ancestors_path_frontmatter_witness :
    (convertRawPage exampleRawWithAncestors).path = ["Root", "Child"] ∧
    "path: \"Root > Child\"" ∈
      frontmatterLines
        { core := exampleRawWithAncestors.core,
          path := (convertRawPage exampleRawWithAncestors).path,
          comments := [] } :=
  ⟨(ancestors_path_frontmatter exampleRawWithAncestors rfl).1,
   (ancestors_path_frontmatter exampleRawWithAncestors rfl).2 []⟩

end ConfluenceDownloader
